import Mathlib

/-!
Verification of the ecs-manage service reconciliation tool.

Shallow embedding of the core logic of `src/helpers.rs`, `src/services.rs`,
`src/args.rs` and `src/main.rs`. Remote AWS calls are modelled by explicit
"world" functions giving, for each request, the response the remote control
plane would return after the surrounding retry wrapper has resolved
(success, or the permanent error it gives up with). Real time (backoff sleep
durations, the 15-minute elapsed-time budget of the backoff crate) is not
modelled; an operation is instead described by the list of outcomes its
successive invocations produce.

Rust `Option<T>` becomes `Option`, `Result<T, E>` becomes `Except`, `i64`
becomes `Int`. A Rust panic (`unwrap` on `None`, index out of bounds) is a
distinguished outcome constructor, not an `Except` error, because the
original program aborts without returning an error value there.
-/

set_option maxRecDepth 4096

/-! ## Data model: the rusoto record types used by the program -/

/-- Model of `rusoto_ecs::DeploymentConfiguration` (only fields carried
around by the program; the program never inspects them). -/
structure DeploymentConfiguration where
  maximum_percent : Option Int := none
  minimum_healthy_percent : Option Int := none
deriving DecidableEq, Repr

/-- Model of `rusoto_ecs::AwsVpcConfiguration`. The program only tests its
presence (`awsvpc_configuration.is_some()`), never its contents. -/
structure AwsvpcConfiguration where
  subnets : List String := []
  security_groups : Option (List String) := none
deriving DecidableEq, Repr

/-- Model of `rusoto_ecs::NetworkConfiguration`. -/
structure NetworkConfiguration where
  awsvpc_configuration : Option AwsvpcConfiguration := none
deriving DecidableEq, Repr

/-- Model of `rusoto_ecs::LoadBalancer` (a load-balancer binding of a
service). -/
structure LoadBalancer where
  container_name : Option String := none
  container_port : Option Int := none
  load_balancer_name : Option String := none
  target_group_arn : Option String := none
deriving DecidableEq, Repr

/-- Model of `rusoto_ecs::PlacementConstraint`. -/
structure PlacementConstraint where
  expression : Option String := none
  type_ : Option String := none
deriving DecidableEq, Repr

/-- Model of `rusoto_ecs::PlacementStrategy`. -/
structure PlacementStrategy where
  field_ : Option String := none
  type_ : Option String := none
deriving DecidableEq, Repr

/-- Model of `rusoto_ecs::Service`: the fields of a service descriptor that
the program reads or copies. -/
structure Service where
  service_name : Option String := none
  task_definition : Option String := none
  desired_count : Option Int := none
  running_count : Option Int := none
  deployment_configuration : Option DeploymentConfiguration := none
  launch_type : Option String := none
  load_balancers : Option (List LoadBalancer) := none
  network_configuration : Option NetworkConfiguration := none
  placement_constraints : Option (List PlacementConstraint) := none
  placement_strategy : Option (List PlacementStrategy) := none
  platform_version : Option String := none
  health_check_grace_period_seconds : Option Int := none
deriving DecidableEq, Repr

/-- Model of `rusoto_ecs::ContainerDefinition` (field `image` is the only
one the program reads). -/
structure ContainerDefinition where
  image : Option String := none
  name : Option String := none
deriving DecidableEq, Repr

/-- Model of `rusoto_ecs::TaskDefinition`. -/
structure TaskDefinition where
  container_definitions : Option (List ContainerDefinition) := none
  task_definition_arn : Option String := none
deriving DecidableEq, Repr

/-- Model of `rusoto_ecr::ImageDetail` (opaque to the program: it is only
stored in the result list). -/
structure ImageDetail where
  image_digest : Option String := none
  image_tags : Option (List String) := none
  repository_name : Option String := none
deriving DecidableEq, Repr

/-- Model of `rusoto_elbv2::TargetGroup` (opaque to the program). -/
structure TargetGroup where
  target_group_arn : Option String := none
  target_group_name : Option String := none
deriving DecidableEq, Repr

/-- Model of `rusoto_ecs::Failure` (a failure record in a
`DescribeServices` response). -/
structure Failure where
  arn : Option String := none
  reason : Option String := none
deriving DecidableEq, Repr

/-! ## Remote errors and the backoff crate -/

/-- Model of a rusoto operation error enum (`ListServicesError`,
`DescribeServicesError`, `DescribeTaskDefinitionError`,
`UpdateServiceError`, `DescribeTargetGroupsError`): the `Unknown(String)`
variant carries the raw response body; every other variant
(`ClientException`, `Validation`, `Credentials`, `HttpDispatch`, ...) is
collapsed into `other`, which is all the program's `_ =>` match arms do. -/
inductive RemoteError where
  | unknown (body : String)
  | other (desc : String)
deriving DecidableEq, Repr

/-- Model of `backoff::Error<E>`: the classification a call site assigns to
a remote error before handing it to the retry wrapper. -/
inductive BackoffError (ε : Type) where
  | transient (e : ε)
  | permanent (e : ε)
deriving DecidableEq, Repr

/-- Log severity of the retry diagnostics: `helpers.rs` uses the `info!`
macro, `main.rs` uses `warn!`. -/
inductive LogLevel where
  | info
  | warn
deriving DecidableEq, Repr

/-- One emitted log record. -/
structure LogEntry where
  level : LogLevel
  message : String
deriving DecidableEq, Repr

/-- Model of `backoff`'s `Operation::retry_notify` as used by both
`retry_log` functions. The operation (a Rust `FnMut` closure) is modelled
by the list of outcomes its successive invocations return. The wrapper
calls the operation; on `Ok` or a permanent error it returns at once; on a
transient error it emits one notification message and retries. The result
is the wrapper's return value, the emitted log entries in order, and the
number of invocations made; `none` models the case where the supplied
outcome list is exhausted before the wrapper resolves (in reality the
wrapper would keep retrying until its elapsed-time budget runs out; real
time is outside the model). -/
def retry_notify (lvl : LogLevel) (msg : String) :
    List (Except (BackoffError String) α) →
    Option (Except (BackoffError String) α × List LogEntry × Nat)
  | [] => none
  | .ok t :: _ => some (.ok t, [], 1)
  | .error (.permanent e) :: _ => some (.error (.permanent e), [], 1)
  | .error (.transient e) :: rest =>
    match retry_notify lvl msg rest with
    | none => none
    | some (r, logs, n) =>
      some (r, ⟨lvl, msg ++ " failed due to " ++ e ++ ". Retrying"⟩ :: logs, n + 1)

/-- Model of `helpers::retry_log` (src/helpers.rs lines 13-22): retries via
`ExponentialBackoff::default()` and logs each retry with `info!`. The error
type parameter `E : Display` is modelled as the displayed `String`. -/
def retry_log (msg : String) (outcomes : List (Except (BackoffError String) α)) :
    Option (Except (BackoffError String) α × List LogEntry × Nat) :=
  retry_notify .info msg outcomes

/-- Model of the `retry_log` copy in `src/main.rs` lines 420-429: identical
to `helpers::retry_log` except that the notification is logged with
`warn!`. -/
def main_retry_log (msg : String) (outcomes : List (Except (BackoffError String) α)) :
    Option (Except (BackoffError String) α × List LogEntry × Nat) :=
  retry_notify .warn msg outcomes

/-! ## Error classification (the per-family throttling match) -/

/-- The exact throttling body against which every ECS-family call site
compares the `Unknown` error string (services.rs lines 64, 97, 246, 294 and
the same literals in main.rs). -/
def throttling_body : String :=
  "\x7b\"__type\":\"ThrottlingException\",\"message\":\"Rate exceeded\"\x7d"

/-- The throttling marker the target-group call site looks for as a
substring (services.rs line 397). -/
def elb_throttling_marker : String := "<Code>Throttling</Code>"

/-- Rust `str::contains` for string patterns: some suffix of `s` has `pat`
as a prefix. -/
def str_contains (s pat : String) : Bool :=
  s.toList.tails.any fun suf => pat.toList.isPrefixOf suf

/-- Rust `str::split(c)` over the character list of a string: splits at
every occurrence of `c`, keeping empty segments, and always returns at
least one segment. -/
def split_on_char (c : Char) : List Char → List (List Char)
  | [] => [[]]
  | x :: xs =>
    match split_on_char c xs with
    | [] => [[]]
    | g :: gs => if x = c then [] :: g :: gs else (x :: g) :: gs

/-- Rust `s.split(c).collect::<Vec<&str>>()`. -/
def rust_split (s : String) (c : Char) : List String :=
  (split_on_char c s.toList).map String.mk

/-- The error classification every ECS-family call site performs before
handing the error to the retry wrapper (`ListServices`, `DescribeServices`,
`DescribeTaskDefinition`, `UpdateService`; e.g. services.rs lines 62-71):
an `Unknown` body equal to `throttling_body` is transient, everything else
is permanent. -/
def classify_ecs_error (e : RemoteError) : BackoffError RemoteError :=
  match e with
  | .unknown s =>
    if s = throttling_body then .transient (.unknown s)
    else .permanent (.unknown s)
  | e => .permanent e

/-- The error classification of the target-group family
(`DescribeTargetGroups`, services.rs lines 395-408): an `Unknown` body
containing `elb_throttling_marker` as a substring is transient, everything
else is permanent. -/
def classify_elb_error (e : RemoteError) : BackoffError RemoteError :=
  match e with
  | .unknown s =>
    if str_contains s elb_throttling_marker then .transient (.unknown s)
    else .permanent (.unknown s)
  | e => .permanent e

/-! ## Paginated listing (list_services, services.rs lines 44-81) -/

/-- Model of a `rusoto_ecs::ListServicesResponse` page. -/
structure ListServicesPage where
  service_arns : Option (List String) := none
  next_token : Option String := none
deriving DecidableEq, Repr

/-- Result of the pagination loop: the accumulated identifiers together
with the trace of continuation tokens the calls were issued with, a
permanent listing error, or exhaustion of the termination fuel (the Rust
loop has no fuel; `fuelOut` marks runs the model cannot finish). -/
inductive ListOutcome where
  | ok (services : List String) (calls : List String)
  | err (e : RemoteError) (calls : List String)
  | fuelOut
deriving DecidableEq, Repr

/-- The `while token.is_some()` loop of `list_services` (services.rs lines
52-78). `server tok` is the post-retry outcome of one `ListServices` call
issued with continuation token `tok`; `acc` and `calls` accumulate
`services` and the tokens requested so far. Each page's `service_arns`
(when present) are appended, and the loop continues with the page's
`next_token`. -/
def list_services_go (server : String → Except RemoteError ListServicesPage) :
    Nat → Option String → List String → List String → ListOutcome
  | _, none, acc, calls => .ok acc calls
  | 0, some _, _, _ => .fuelOut
  | fuel + 1, some tok, acc, calls =>
    match server tok with
    | .error e => .err e (calls ++ [tok])
    | .ok res =>
      list_services_go server fuel res.next_token
        (acc ++ res.service_arns.getD []) (calls ++ [tok])

/-- Model of `list_services` (services.rs lines 44-81): the token starts as
`Some(String::new())`, i.e. the empty string. -/
def list_services (server : String → Except RemoteError ListServicesPage)
    (fuel : Nat) : ListOutcome :=
  list_services_go server fuel (some "") [] []

/-- A finite chain of listing pages served from a start token: each entry
pairs the token a call is issued with and the page the server returns for
it; every page but the last carries the next entry's token, and the last
page carries no continuation token. -/
inductive PageChain (server : String → Except RemoteError ListServicesPage) :
    String → List (String × ListServicesPage) → Prop
  | last (tok : String) (page : ListServicesPage)
      (hs : server tok = .ok page) (hn : page.next_token = none) :
      PageChain server tok [(tok, page)]
  | cons (tok : String) (page : ListServicesPage) (tok' : String)
      (rest : List (String × ListServicesPage))
      (hs : server tok = .ok page) (hn : page.next_token = some tok')
      (hrest : PageChain server tok' rest) :
      PageChain server tok ((tok, page) :: rest)

/-! ## describe_service response handling (services.rs lines 83-117) -/

/-- Model of a `rusoto_ecs::DescribeServicesResponse`. -/
structure DescribeServicesResponse where
  failures : Option (List Failure) := none
  services : Option (List Service) := none
deriving DecidableEq, Repr

/-- Outcome of `describe_service`'s handling of a successful
`DescribeServices` response: the extracted descriptor, a `bail!` error, or
a panic. -/
inductive DescribeOutcome where
  | ok (s : Service)
  | error (msg : String)
  | panic
deriving DecidableEq, Repr

/-- The failure check of `describe_service` (services.rs lines 107-111):
the response carries a failures list and it is non-empty. -/
def has_failures (res : DescribeServicesResponse) : Bool :=
  match res.failures with
  | some failures => !failures.isEmpty
  | none => false

/-- What `describe_service` (services.rs lines 83-117) does with the
response the retry wrapper eventually returns successfully: `bail!` if the
failures list is non-empty, `bail!` if the `services` field is absent, and
otherwise `services.pop().unwrap()` — which takes the last descriptor and
panics when the list is present but empty. (The `bail!` messages embed
`Debug` dumps of the response; the model keeps only their prefix and the
service name.) -/
def describe_service_extract (service : String)
    (res : DescribeServicesResponse) : DescribeOutcome :=
  if has_failures res then .error ("Failures: " ++ service)
  else
    match res.services with
    | none => .error ("No service description for " ++ service)
    | some services =>
      match services.getLast? with
      | none => .panic
      | some s => .ok s

/-- Whether a `DescribeOutcome` is a returned error (as opposed to a
success or a panic). -/
def DescribeOutcome.isError : DescribeOutcome → Bool
  | .error _ => true
  | _ => false

/-! ## Service-name diff (compare_services, services.rs lines 25-42) -/

/-- Model of `service_name` (services.rs lines 18-23). The real error
message embeds a `Debug` dump of the whole service; the model keeps a fixed
message. -/
def service_name (service : Service) : Except String String :=
  match service.service_name with
  | some n => .ok n
  | none => .error "No service name found for service"

/-- Model of the diff core of `compare_services` (services.rs lines
33-41). Its inputs are the two cluster inventories that lines 30-31 obtain
from `describe_services`; the destination names (as `Option<String>`
values) are collected and every source descriptor whose `service_name` is
not among them is kept, in source order. -/
def compare_services (source_services destination_services : List Service) :
    List Service :=
  let destination_names := destination_services.map (·.service_name)
  source_services.filter fun s => !(destination_names.contains s.service_name)

/-! ## create_service (main.rs lines 262-323, services.rs lines 129-202) -/

/-- The `has_loadbalancer` test of `create_service`:
`from_service.load_balancers.clone().map_or(false, |l| !l.is_empty())`. -/
def has_loadbalancer (s : Service) : Bool :=
  match s.load_balancers with
  | some l => !l.isEmpty
  | none => false

/-- The `is_awsvpc` test of `create_service`:
`from_service.network_configuration.clone().map_or(false, |n| n.awsvpc_configuration.is_some())`. -/
def is_awsvpc (s : Service) : Bool :=
  match s.network_configuration with
  | some n => n.awsvpc_configuration.isSome
  | none => false

/-- The role inference of `create_service` (main.rs lines 277-285,
services.rs lines 144-152): a role is passed exactly when the template has
a non-empty load-balancer list and no awsvpc configuration, and it is then
`"<cluster>-<role_suffix or ECSServiceRole>"`. -/
def create_service_role (cluster : String) (from_service : Service)
    (role_suffix : Option String) : Option String :=
  if has_loadbalancer from_service && !is_awsvpc from_service then
    some (cluster ++ "-" ++ role_suffix.getD "ECSServiceRole")
  else
    none

/-- Model of `rusoto_ecs::CreateServiceRequest`. -/
structure CreateServiceRequest where
  client_token : Option String := none
  cluster : Option String := none
  deployment_configuration : Option DeploymentConfiguration := none
  desired_count : Int := 0
  health_check_grace_period_seconds : Option Int := none
  launch_type : Option String := none
  load_balancers : Option (List LoadBalancer) := none
  network_configuration : Option NetworkConfiguration := none
  placement_constraints : Option (List PlacementConstraint) := none
  placement_strategy : Option (List PlacementStrategy) := none
  platform_version : Option String := none
  role : Option String := none
  service_name : String := ""
  task_definition : String := ""
deriving DecidableEq, Repr

/-- The request `create_service` in `src/main.rs` (lines 262-316) builds
before issuing the `CreateService` call: it bails if the template has no
service name, then copies every field from the template, bailing if the
desired count or the task definition is absent (the real error messages
embed the service name; the model keeps their prefix). The role field is
the inferred `create_service_role`. -/
def create_service_request (cluster : String) (from_service : Service)
    (role_suffix : Option String) : Except String CreateServiceRequest :=
  let role := create_service_role cluster from_service role_suffix
  match from_service.service_name with
  | none => .error "No service name found"
  | some name =>
    match from_service.desired_count with
    | none => .error ("No desired count found for " ++ name)
    | some desired_count =>
      match from_service.task_definition with
      | none => .error ("No task definition found for " ++ name)
      | some task_definition =>
        .ok
          { client_token := none
            cluster := some cluster
            deployment_configuration := from_service.deployment_configuration
            desired_count := desired_count
            health_check_grace_period_seconds :=
              from_service.health_check_grace_period_seconds
            launch_type := from_service.launch_type
            load_balancers := from_service.load_balancers
            network_configuration := from_service.network_configuration
            placement_constraints := from_service.placement_constraints
            placement_strategy := from_service.placement_strategy
            platform_version := from_service.platform_version
            role := role
            service_name := name
            task_definition := task_definition }

/-! ## update_service (services.rs lines 204-257) -/

/-- Model of `rusoto_ecs::UpdateServiceRequest`. -/
structure UpdateServiceRequest where
  cluster : Option String := none
  deployment_configuration : Option DeploymentConfiguration := none
  desired_count : Option Int := none
  force_new_deployment : Option Bool := none
  health_check_grace_period_seconds : Option Int := none
  network_configuration : Option NetworkConfiguration := none
  platform_version : Option String := none
  service : String := ""
  task_definition : Option String := none
deriving DecidableEq, Repr

/-- Model of `args::ServiceModification` as `update_service` consumes it:
the `desired-count` modification carrying the count to set. -/
inductive ServiceModification where
  | desiredCount (count : Int)
deriving DecidableEq, Repr

/-- The request `update_service` (services.rs lines 204-257) hands to the
retry wrapper: `template_req` sets the cluster and the service name and
leaves every other field `None`; the `DesiredCount` arm then sets only
`desired_count`. Fails like the source when the service has no name. -/
def update_service_request (cluster : String) (service : Service)
    (modification : ServiceModification) : Except String UpdateServiceRequest :=
  match service_name service with
  | .error e => .error e
  | .ok name =>
    let template_req : UpdateServiceRequest :=
      { cluster := some cluster
        deployment_configuration := none
        desired_count := none
        force_new_deployment := none
        health_check_grace_period_seconds := none
        network_configuration := none
        platform_version := none
        service := name
        task_definition := none }
    match modification with
    | .desiredCount count => .ok { template_req with desired_count := some count }

/-! ## Audit evaluator (services.rs lines 259-434) -/

/-- Result of a fallible audit sub-computation: a value, a propagated
permanent remote error (Rust `Err` via `?`), or a panic. -/
inductive Res (α : Type) where
  | ok (a : α)
  | err (e : RemoteError)
  | panic
deriving DecidableEq, Repr

/-- Map over the value of a `Res`, preserving errors and panics. -/
def Res.map (f : α → β) : Res α → Res β
  | .ok a => .ok (f a)
  | .err e => .err e
  | .panic => .panic

/-- Rust `Result::is_err`. -/
def is_err : Except ε α → Bool
  | .error _ => true
  | .ok _ => false

/-- The post-retry remote world an audit runs against.
`task_definition arn` is the `task_definition` field of the
`DescribeTaskDefinition` response for `arn` (or the permanent error the
retry wrapper gives up with); `images repo tag` is the `image_details`
field of the `DescribeImages` response (this call is issued without a retry
wrapper in the source, so the outcome is the raw call result);
`target_groups arn` is the `target_groups` field of the
`DescribeTargetGroups` response for `[arn]`. -/
structure AuditWorld where
  task_definition : String → Except RemoteError (Option TaskDefinition)
  images : String → String → Except RemoteError (Option (List ImageDetail))
  target_groups : String → Except RemoteError (Option (List TargetGroup))

/-- The per-container loop of `service_ecr_images` (services.rs lines
313-360), over the `image` fields of the container definitions. A missing
image is skipped; the image reference is split on `/` and its last segment
split on `:` into repository and tag, indexing `[1]` — a panic when the
segment has no `:`; a registry error pushes one `Err` entry; a successful
response with an absent or empty `image_details` list pushes nothing; a
non-empty one pushes its popped (last) detail as an `Ok` entry. -/
def ecr_images_loop (w : AuditWorld) :
    List (Option String) → Res (List (Except RemoteError ImageDetail))
  | [] => .ok []
  | none :: rest => ecr_images_loop w rest
  | some image_arn :: rest =>
    match (rust_split image_arn '/').getLast? with
    | none => ecr_images_loop w rest
    | some repo_image =>
      match rust_split repo_image ':' with
      | repo :: tag :: _ =>
        match w.images repo tag with
        | .error e => Res.map (.error e :: ·) (ecr_images_loop w rest)
        | .ok none => ecr_images_loop w rest
        | .ok (some image_details) =>
          match image_details.getLast? with
          | none => ecr_images_loop w rest
          | some image_detail => Res.map (.ok image_detail :: ·) (ecr_images_loop w rest)
      | _ => .panic

/-- Model of `service_ecr_images` (services.rs lines 278-371): no task
definition on the service yields the empty list; otherwise the task
definition is described through the retry wrapper (a permanent error
propagates), and an absent task definition or absent container-definition
list yields the empty list; otherwise the per-container loop runs over the
containers' image fields. -/
def service_ecr_images (w : AuditWorld) (service : Service) :
    Res (List (Except RemoteError ImageDetail)) :=
  match service.task_definition with
  | none => .ok []
  | some td_arn =>
    match w.task_definition td_arn with
    | .error e => .err e
    | .ok none => .ok []
    | .ok (some td) =>
      match td.container_definitions with
      | none => .ok []
      | some cds => ecr_images_loop w (cds.map (·.image))

/-- The per-binding loop of `service_target_groups` (services.rs lines
381-428), over the `target_group_arn` fields of the load-balancer
bindings. A missing reference is skipped; a (post-retry) permanent lookup
error pushes one `Err` entry; an absent or empty `target_groups` list
pushes nothing; a non-empty one pushes its popped (last) record. -/
def target_groups_loop (w : AuditWorld) :
    List (Option String) → List (Except RemoteError TargetGroup)
  | [] => []
  | none :: rest => target_groups_loop w rest
  | some arn :: rest =>
    match w.target_groups arn with
    | .error e => .error e :: target_groups_loop w rest
    | .ok none => target_groups_loop w rest
    | .ok (some tgs) =>
      match tgs.getLast? with
      | none => target_groups_loop w rest
      | some tg => .ok tg :: target_groups_loop w rest

/-- Model of `service_target_groups` (services.rs lines 373-434): no
load-balancer list yields the empty list, otherwise the per-binding loop
runs. The Rust function returns `Result` but no path returns `Err`. -/
def service_target_groups (w : AuditWorld) (service : Service) :
    List (Except RemoteError TargetGroup) :=
  match service.load_balancers with
  | none => []
  | some load_balancers =>
    target_groups_loop w (load_balancers.map (·.target_group_arn))

/-- Model of `audit_service` (services.rs lines 259-276): three named
boolean findings, of which the true ones are returned. The Rust code builds
a `HashMap`, whose iteration order is unspecified; the model fixes the
textual order of the `hashmap!` literal, so only the set of returned
findings is meaningful. A failure of `service_ecr_images` propagates
(`?`). -/
def audit_service (w : AuditWorld) (service : Service) : Res (List String) :=
  match service_ecr_images w service with
  | .err e => .err e
  | .panic => .panic
  | .ok images =>
    let tgs := service_target_groups w service
    let audit : List (String × Bool) :=
      [("Invalid ECR images", images.any is_err),
       ("Invalid Target groups", tgs.any is_err),
       ("Less than desired",
        decide (service.running_count.getD 0 < service.desired_count.getD 0))]
    .ok ((audit.filter (·.2)).map (·.1))

/-! ## The Sync arm of main (main.rs lines 146-171) -/

/-- An observable action of the sync orchestrator: a `CreateService` call
issued to the control plane, or a sleep. (The source's `println!`
diagnostics are not modelled.) -/
inductive Effect where
  | createCall (req : CreateServiceRequest)
  | sleepPause
deriving DecidableEq, Repr

/-- The remote world of the creation loop: the `service` field of the
`CreateServiceResponse` for a request, or the remote error. -/
structure SyncWorld where
  create : CreateServiceRequest → Except RemoteError (Option Service)

/-- The creation loop of the Sync arm (main.rs lines 163-170): for each
source-only service in order, `create_service` is invoked with `?`. A
precondition failure (missing name, desired count or task definition)
aborts before any call for that service; otherwise the `CreateService` call
is issued (recorded as an effect) and a remote error, or an absent
`service` field in the response, aborts after it. The result is the trace
of effects together with the error that stopped the loop, if any. -/
def sync_loop (w : SyncWorld) (destination_cluster : String)
    (role_suffix : Option String) : List Service → List Effect × Option String
  | [] => ([], none)
  | svc :: rest =>
    match create_service_request destination_cluster svc role_suffix with
    | .error msg => ([], some msg)
    | .ok req =>
      match w.create req with
      | .error _ => ([.createCall req], some "CreateService failed")
      | .ok none => ([.createCall req], some "Tried to create service, but nothing returned")
      | .ok (some _) =>
        (.createCall req :: (sync_loop w destination_cluster role_suffix rest).1,
         (sync_loop w destination_cluster role_suffix rest).2)

/-- Model of the `EcsCommand::Sync` arm of `main` (main.rs lines 146-171),
starting from the two inventories that `describe_services` returns for the
source and destination clusters: the destination names are collected, the
source is filtered to the services whose name is not among them, and the
creation loop runs over the result. No audit is consulted and no sleep is
performed anywhere in the arm. -/
def sync_arm (w : SyncWorld) (source_services destination_services : List Service)
    (destination_cluster : String) (role_suffix : Option String) :
    List Effect × Option String :=
  let destination_names := destination_services.map (·.service_name)
  let source_only :=
    source_services.filter fun s => !(destination_names.contains s.service_name)
  sync_loop w destination_cluster role_suffix source_only

/-! ## Concrete sample inputs used to exercise the definitions -/

/-- A remote world whose task definitions carry no container definitions
and whose lookups return nothing. -/
def audit_world_trivial : AuditWorld where
  task_definition := fun _ => .ok (some {})
  images := fun _ _ => .ok none
  target_groups := fun _ => .ok none

/-- A creation world where every `CreateService` call succeeds and returns
a descriptor. -/
def sync_world_ok : SyncWorld where
  create := fun _ => .ok (some {})

/-- A service running below its desired count (audit finding
"Less than desired") that is otherwise creatable. -/
def svc_low_running : Service :=
  { service_name := some "svcA", task_definition := some "td-A",
    desired_count := some 1, running_count := some 0 }

/-- The creation request the Sync arm builds for `svc_low_running` against
destination cluster `dest`. -/
def svc_low_running_req : CreateServiceRequest :=
  { cluster := some "dest", desired_count := 1,
    service_name := "svcA", task_definition := "td-A" }

/-- A healthy creatable service named `a`. -/
def svc_a : Service :=
  { service_name := some "a", task_definition := some "td-a",
    desired_count := some 1, running_count := some 1 }

/-- A healthy creatable service named `b`. -/
def svc_b : Service :=
  { service_name := some "b", task_definition := some "td-b",
    desired_count := some 1, running_count := some 1 }

/-- The creation request the Sync arm builds for `svc_a`. -/
def req_a : CreateServiceRequest :=
  { cluster := some "dest", desired_count := 1,
    service_name := "a", task_definition := "td-a" }

/-- The creation request the Sync arm builds for `svc_b`. -/
def req_b : CreateServiceRequest :=
  { cluster := some "dest", desired_count := 1,
    service_name := "b", task_definition := "td-b" }

/-- First listing page of the sample paginated server. Its identifier list
overlaps the second page's, to exhibit that accumulation does not
deduplicate. -/
def sample_page_1 : ListServicesPage :=
  { service_arns := some ["arn-a", "arn-b"], next_token := some "t1" }

/-- Second and final listing page of the sample paginated server. -/
def sample_page_2 : ListServicesPage :=
  { service_arns := some ["arn-b"], next_token := none }

/-- A two-page listing server: the empty start token yields page 1, whose
continuation token `t1` yields page 2. -/
def sample_server (tok : String) : Except RemoteError ListServicesPage :=
  if tok = "" then .ok sample_page_1
  else if tok = "t1" then .ok sample_page_2
  else .error (.other "unexpected token")

/-- The token/page chain `sample_server` serves from the empty token. -/
def sample_chain : List (String × ListServicesPage) :=
  [("", sample_page_1), ("t1", sample_page_2)]

/-- A remote world whose image registry rejects every lookup. -/
def ecr_world_err : AuditWorld where
  task_definition := fun _ =>
    .ok (some { container_definitions := some [{ image := some "123.ecr.aws/repo:v1" }] })
  images := fun _ _ => .error (.other "boom")
  target_groups := fun _ => .ok none

/-- A service with one load-balancer binding and no awsvpc configuration. -/
def svc_with_lb : Service :=
  { service_name := some "web", task_definition := some "td-web",
    desired_count := some 2,
    load_balancers := some [{ target_group_arn := some "tg-arn" }] }

/-- The creation request built for `svc_with_lb` against cluster `dest`
with no role suffix. -/
def req_with_lb : CreateServiceRequest :=
  { cluster := some "dest", desired_count := 2,
    load_balancers := some [{ target_group_arn := some "tg-arn" }],
    role := some "dest-ECSServiceRole",
    service_name := "web", task_definition := "td-web" }

/-- The update request built for a service named `web` in cluster `prod`
with desired count 5. -/
def upd_req_sample : UpdateServiceRequest :=
  { cluster := some "prod", service := "web", desired_count := some 5 }

/-! ## Theorems -/

/-- Claim C8: an ECS-family remote error (list services, describe services,
describe task definition, update service) is classified transient iff it is
the `Unknown` error whose body is exactly the throttling JSON; a
target-group-describe error is classified transient iff it is an `Unknown`
error whose body contains `<Code>Throttling</Code>` as a substring; every
other error is classified permanent, and classification preserves the
error. -/
theorem classify_throttling_correct (e : RemoteError) :
    (classify_ecs_error e = .transient e ↔ e = .unknown throttling_body) ∧
    (classify_ecs_error e = .permanent e ↔ e ≠ .unknown throttling_body) ∧
    (classify_elb_error e = .transient e ↔
      ∃ s, e = .unknown s ∧ str_contains s elb_throttling_marker = true) ∧
    (classify_elb_error e = .permanent e ↔
      ¬ ∃ s, e = .unknown s ∧ str_contains s elb_throttling_marker = true) := by
  rcases e with s | d
  · refine ⟨?_, ?_, ?_, ?_⟩ <;>
      simp only [classify_ecs_error, classify_elb_error] <;> split_ifs with h <;>
      simp_all
  · refine ⟨?_, ?_, ?_, ?_⟩ <;> simp [classify_ecs_error, classify_elb_error]

/-- Helper: the retry wrapper on an operation that fails transiently for
each error in `errs` and then succeeds with `t` returns the success, one
log entry per transient failure, and `errs.length + 1` invocations. -/
theorem retry_notify_transient_then_ok (lvl : LogLevel) (msg : String)
    (errs : List String) (t : α) :
    retry_notify lvl msg
        (errs.map (fun e => .error (.transient e)) ++ [.ok t]) =
      some (.ok t,
        errs.map (fun e =>
          ⟨lvl, msg ++ " failed due to " ++ e ++ ". Retrying"⟩),
        errs.length + 1) := by
  induction errs with
  | nil => rfl
  | cons e rest ih => simp [retry_notify, ih]

/-- Claim C2 (amended): both retry wrappers return the operation's success
after an operation that fails with transient-classified errors exactly N
times and then succeeds, emitting exactly N messages of the form
`<description> failed due to <error>. Retrying`, and both return a
permanent-classified failure after exactly one invocation with no message;
`helpers::retry_log` emits its messages at informational severity, while
the `retry_log` copy in `main.rs` emits them at warning severity. -/
theorem retry_log_behaviour (msg : String) (errs : List String) (t : α)
    (e : String) (rest : List (Except (BackoffError String) α)) :
    retry_log msg (errs.map (fun x => .error (.transient x)) ++ [.ok t]) =
      some (.ok t,
        errs.map (fun x =>
          ⟨.info, msg ++ " failed due to " ++ x ++ ". Retrying"⟩),
        errs.length + 1) ∧
    retry_log msg (.error (.permanent e) :: rest) =
      some (.error (.permanent e), [], 1) ∧
    main_retry_log msg (errs.map (fun x => .error (.transient x)) ++ [.ok t]) =
      some (.ok t,
        errs.map (fun x =>
          ⟨.warn, msg ++ " failed due to " ++ x ++ ". Retrying"⟩),
        errs.length + 1) ∧
    main_retry_log msg (.error (.permanent e) :: rest) =
      some (.error (.permanent e), [], 1) :=
  ⟨retry_notify_transient_then_ok .info msg errs t, rfl,
   retry_notify_transient_then_ok .warn msg errs t, rfl⟩

/-- Claim C2 counterexample: the `retry_log` in `main.rs` emits its retry
message at warning severity, not at informational severity, for an
operation that fails transiently once and then succeeds. -/
theorem main_retry_log_warn_severity :
    main_retry_log "listing services in test"
        [.error (.transient "E"), .ok (0 : Nat)] =
      some (.ok 0,
        [⟨.warn, "listing services in test failed due to E. Retrying"⟩], 2) ∧
    LogLevel.warn ≠ LogLevel.info := by
  exact ⟨rfl, by decide⟩

/-- Claim C3: the diff core of `compare_services` keeps exactly the source
descriptors whose service name is not among the destination service names,
its name list is the source name list minus the destination name list, and
the result preserves the source enumeration order (it is a sublist of the
source inventory). -/
theorem compare_services_correct (A B : List Service) :
    (compare_services A B).Sublist A ∧
    (∀ s : Service, s ∈ compare_services A B ↔
      s ∈ A ∧ s.service_name ∉ B.map (·.service_name)) ∧
    (compare_services A B).map (·.service_name) =
      (A.map (·.service_name)).filter
        (fun n => !((B.map (·.service_name)).contains n)) := by
  refine ⟨List.filter_sublist A, ?_, ?_⟩
  · intro s
    simp [compare_services, List.mem_filter, List.contains, List.elem_iff]
  · have := List.filter_map
      (f := fun s : Service => s.service_name)
      (p := fun n => !((B.map (·.service_name)).contains n)) (l := A)
    simpa [compare_services, Function.comp] using this.symm

/-- Claim C4 counterexample: a successful response that reports zero
descriptors via a present-but-empty `services` list passes both checks and
makes `describe_service` panic (`services.pop().unwrap()`), which is not a
returned error. -/
theorem describe_service_empty_list_panics :
    describe_service_extract "svc" { failures := none, services := some [] } =
      .panic ∧
    (describe_service_extract "svc"
      { failures := none, services := some [] }).isError = false :=
  ⟨rfl, rfl⟩

/-- Claim C4 (amended): `describe_service` returns an error exactly when
the response carries a non-empty failures list or no `services` field at
all; when the checks pass and the `services` list is present but empty the
descriptor extraction panics instead of returning an error; the extraction
is total exactly when the present `services` list is non-empty. -/
theorem describe_service_extract_cases (service : String)
    (res : DescribeServicesResponse) :
    ((∃ m, describe_service_extract service res = .error m) ↔
      (has_failures res = true ∨ res.services = none)) ∧
    (describe_service_extract service res = .panic ↔
      (has_failures res = false ∧ res.services = some [])) ∧
    ((∃ s, describe_service_extract service res = .ok s) ↔
      (has_failures res = false ∧ ∃ l, res.services = some l ∧ l ≠ [])) := by
  by_cases h : has_failures res
  · simp [describe_service_extract, h]
  · rcases hs : res.services with _ | l
    · simp [describe_service_extract, h, hs]
    · rcases hl : l.getLast? with _ | s
      · have : l = [] := List.getLast?_eq_none_iff.mp hl
        subst this
        simp [describe_service_extract, h, hs]
      · have hne : l ≠ [] := by
          intro hnil; subst hnil; simp at hl
        simp [describe_service_extract, h, hs, hl, hne]

/-- Claim C5: the request built by `create_service` carries the role
`"<cluster>-<suffix or ECSServiceRole>"` exactly when the template service
has at least one load-balancer binding and no awsvpc network
configuration, and carries no role in every other case. -/
theorem create_service_role_iff (cluster : String) (from_service : Service)
    (role_suffix : Option String) (req : CreateServiceRequest)
    (h : create_service_request cluster from_service role_suffix = .ok req) :
    (req.role = some (cluster ++ "-" ++ role_suffix.getD "ECSServiceRole") ↔
      has_loadbalancer from_service = true ∧ is_awsvpc from_service = false) ∧
    (req.role = none ↔
      (has_loadbalancer from_service = false ∨ is_awsvpc from_service = true)) := by
  have hrole : req.role = create_service_role cluster from_service role_suffix := by
    unfold create_service_request at h
    split at h
    · exact absurd h (by simp)
    · split at h
      · exact absurd h (by simp)
      · split at h
        · exact absurd h (by simp)
        · cases h
          rfl
  rw [hrole]
  unfold create_service_role
  split_ifs with hc
  · rw [Bool.and_eq_true, Bool.not_eq_true'] at hc
    simp [hc]
  · rw [Bool.and_eq_true, Bool.not_eq_true'] at hc
    rcases Decidable.not_and_iff_or_not.mp hc with h1 | h2
    · simp [Bool.not_eq_true] at h1
      simp [h1]
    · simp [Bool.not_eq_true'] at h2
      simp [h2]

/-- Claim C5 witness: for a template with one load-balancer binding, no
awsvpc configuration, and no role suffix, the built request carries role
`dest-ECSServiceRole`. -/
theorem create_service_role_iff_witness :
    req_with_lb.role = some "dest-ECSServiceRole" ∧
    has_loadbalancer svc_with_lb = true ∧ is_awsvpc svc_with_lb = false := by
  have h := create_service_role_iff "dest" svc_with_lb none req_with_lb rfl
  exact ⟨h.1.mpr (by decide), by decide, by decide⟩

/-- Claim C10: the update request built by `update_service` for a
desired-count modification sets only the cluster, the service name and the
desired count; `task_definition`, `deployment_configuration`,
`network_configuration`, `platform_version`,
`health_check_grace_period_seconds` and `force_new_deployment` are all left
unset. -/
theorem update_service_request_frame (cluster : String) (service : Service)
    (modification : ServiceModification) (req : UpdateServiceRequest)
    (h : update_service_request cluster service modification = .ok req) :
    req.task_definition = none ∧ req.deployment_configuration = none ∧
    req.network_configuration = none ∧ req.platform_version = none ∧
    req.health_check_grace_period_seconds = none ∧
    req.force_new_deployment = none ∧ req.cluster = some cluster ∧
    service.service_name = some req.service ∧
    (∃ count, modification = .desiredCount count ∧
      req.desired_count = some count) := by
  unfold update_service_request at h
  rcases hn : service_name service with e | name <;> rw [hn] at h
  · exact absurd h (by simp)
  · rcases modification with ⟨count⟩
    cases h
    have : service.service_name = some name := by
      unfold service_name at hn
      rcases hs : service.service_name with _ | n <;> rw [hs] at hn
      · exact absurd hn (by simp)
      · cases hn; rfl
    exact ⟨rfl, rfl, rfl, rfl, rfl, rfl, rfl, this, count, rfl, rfl⟩

/-- Claim C10 witness: the request built for service `web` in cluster
`prod` with desired count 5 leaves every other mutable attribute unset. -/
theorem update_service_request_frame_witness :
    upd_req_sample.task_definition = none ∧
    upd_req_sample.force_new_deployment = none ∧
    upd_req_sample.cluster = some "prod" ∧
    upd_req_sample.desired_count = some 5 := by
  have h := update_service_request_frame "prod" { service_name := some "web" }
    (.desiredCount 5) upd_req_sample rfl
  obtain ⟨h1, _, _, _, _, h6, h7, _, count, hc, hd⟩ := h
  cases hc
  exact ⟨h1, h6, h7, hd⟩

/-- Helper: running the pagination loop from a token that heads a finite
page chain collects, in order, the identifiers of every page of the chain
and issues exactly one call per page, provided the fuel covers the chain. -/
theorem list_services_go_chain
    (server : String → Except RemoteError ListServicesPage)
    {tok : String} {chain : List (String × ListServicesPage)}
    (h : PageChain server tok chain) :
    ∀ (fuel : Nat) (acc calls : List String), chain.length ≤ fuel →
      list_services_go server fuel (some tok) acc calls =
        .ok (acc ++ chain.flatMap fun p => p.2.service_arns.getD [])
          (calls ++ chain.map Prod.fst) := by
  induction h with
  | last tok page hs hn =>
    intro fuel acc calls hf
    match fuel with
    | 0 => simp at hf
    | f + 1 =>
      simp [list_services_go, hs, hn]
  | cons tok page tok' rest hs hn hrest ih =>
    intro fuel acc calls hf
    match fuel with
    | 0 => simp at hf
    | f + 1 =>
      have hlen : rest.length ≤ f := by
        simpa using hf
      simp only [list_services_go, hs, hn]
      rw [ih f _ _ hlen]
      simp

/-- Claim C7: for every server and every finite page chain reachable from
the empty start token, `list_services` issues one listing call per page of
the chain (in chain order, each with the token the previous page returned),
stops after the page that carries no continuation token, and returns the
concatenation of all pages' identifier lists in request order, without
deduplication. -/
theorem list_services_paginates
    (server : String → Except RemoteError ListServicesPage)
    (chain : List (String × ListServicesPage)) (fuel : Nat)
    (h : PageChain server "" chain) (hf : chain.length ≤ fuel) :
    list_services server fuel =
      .ok (chain.flatMap fun p => p.2.service_arns.getD [])
        (chain.map Prod.fst) := by
  have := list_services_go_chain server h fuel [] [] hf
  simpa [list_services] using this

/-- Claim C7 witness: the sample two-page server yields the concatenation
of both pages (the duplicated `arn-b` is kept) after calls with the empty
token and then the returned token `t1`. -/
theorem list_services_paginates_witness :
    list_services sample_server 2 =
      .ok ["arn-a", "arn-b", "arn-b"] ["", "t1"] := by
  have hch : PageChain sample_server "" sample_chain :=
    PageChain.cons "" sample_page_1 "t1" [("t1", sample_page_2)] rfl rfl
      (PageChain.last "t1" sample_page_2 rfl rfl)
  have := list_services_paginates sample_server sample_chain 2 hch (by decide)
  simpa [sample_chain, sample_page_1, sample_page_2] using this

/-- Claim C9: a service with no task-definition reference resolves to the
empty image list; a container definition without an image contributes no
entry; a registry-level lookup error contributes exactly one failure entry;
and a successful registry call whose image-detail list is absent or empty
contributes no entry at all. -/
theorem service_ecr_images_spec (w : AuditWorld) (service : Service)
    (image_arn repo_image repo tag : String) (extra : List String)
    (rest : List (Option String)) (e : RemoteError) :
    (service.task_definition = none → service_ecr_images w service = .ok []) ∧
    (ecr_images_loop w (none :: rest) = ecr_images_loop w rest) ∧
    ((rust_split image_arn '/').getLast? = some repo_image →
      rust_split repo_image ':' = repo :: tag :: extra →
      w.images repo tag = .error e →
      ecr_images_loop w (some image_arn :: rest) =
        Res.map (fun l => .error e :: l) (ecr_images_loop w rest)) ∧
    ((rust_split image_arn '/').getLast? = some repo_image →
      rust_split repo_image ':' = repo :: tag :: extra →
      w.images repo tag = .ok none →
      ecr_images_loop w (some image_arn :: rest) = ecr_images_loop w rest) ∧
    ((rust_split image_arn '/').getLast? = some repo_image →
      rust_split repo_image ':' = repo :: tag :: extra →
      w.images repo tag = .ok (some []) →
      ecr_images_loop w (some image_arn :: rest) = ecr_images_loop w rest) := by
  refine ⟨?_, ?_, ?_, ?_, ?_⟩
  · intro h
    simp [service_ecr_images, h]
  · simp [ecr_images_loop]
  · intro h1 h2 h3
    simp [ecr_images_loop, h1, h2, h3]
  · intro h1 h2 h3
    simp [ecr_images_loop, h1, h2, h3]
  · intro h1 h2 h3
    simp [ecr_images_loop, h1, h2, h3]

/-- Claim C9 witness: against a registry that rejects every lookup, the
image `123.ecr.aws/repo:v1` yields exactly one failure entry, and a service
with no task definition resolves to the empty list. -/
theorem service_ecr_images_spec_witness :
    ecr_images_loop ecr_world_err [some "123.ecr.aws/repo:v1"] =
      .ok [Except.error (RemoteError.other "boom")] ∧
    service_ecr_images ecr_world_err { task_definition := none } = .ok [] := by
  have h := service_ecr_images_spec ecr_world_err { task_definition := none }
    "123.ecr.aws/repo:v1" "repo:v1" "repo" "v1" [] [] (.other "boom")
  refine ⟨?_, h.1 rfl⟩
  have h3 := h.2.2.1 (by decide) (by decide) rfl
  rw [h3]
  rfl

/-- Claim C1, evaluated at a failing input: `svc_low_running` audits to the
non-empty finding list `["Less than desired"]`, yet the Sync arm — which
never consults the audit — still issues a `CreateService` call for it. -/
theorem sync_creates_unaudited_service :
    audit_service audit_world_trivial svc_low_running =
      .ok ["Less than desired"] ∧
    (["Less than desired"] : List String) ≠ [] ∧
    (sync_arm sync_world_ok [svc_low_running] [] "dest" none).1 =
      [.createCall svc_low_running_req] := by
  refine ⟨rfl, by decide, rfl⟩

/-- Helper: the Sync creation loop never emits a sleep effect, whatever the
world and the service list. -/
theorem sync_loop_no_sleep (w : SyncWorld) (cluster : String)
    (suffix : Option String) (l : List Service) :
    Effect.sleepPause ∉ (sync_loop w cluster suffix l).1 := by
  induction l with
  | nil => simp [sync_loop]
  | cons svc rest ih =>
    rcases h1 : create_service_request cluster svc suffix with msg | req
    · simp [sync_loop, h1]
    · rcases h2 : w.create req with e | os
      · simp [sync_loop, h1, h2]
      · rcases os with _ | s
        · simp [sync_loop, h1, h2]
        · simp [sync_loop, h1, h2, ih]

/-- Claim C6 counterexample: with two source-only creatable services the
Sync arm issues the two `CreateService` calls back to back; its effect
trace contains no sleep, so no sleep separates one creation from the next
mutating call. -/
theorem sync_no_sleep_between_creates :
    (sync_arm sync_world_ok [svc_a, svc_b] [] "dest" none).1 =
      [.createCall req_a, .createCall req_b] ∧
    Effect.sleepPause ∉ (sync_arm sync_world_ok [svc_a, svc_b] [] "dest" none).1 := by
  have h : (sync_arm sync_world_ok [svc_a, svc_b] [] "dest" none).1 =
      [.createCall req_a, .createCall req_b] := rfl
  refine ⟨h, ?_⟩
  rw [h]
  decide

/-- Claim C6 (amended): the Sync arm performs no inter-call sleep at all —
its effect trace never contains a sleep; the only sleeps during a sync are
the backoff sleeps inside the retry wrapper used by the underlying remote
calls. -/
theorem sync_arm_never_sleeps (w : SyncWorld)
    (source_services destination_services : List Service)
    (destination_cluster : String) (role_suffix : Option String) :
    Effect.sleepPause ∉
      (sync_arm w source_services destination_services
        destination_cluster role_suffix).1 := by
  unfold sync_arm
  exact sync_loop_no_sleep w destination_cluster role_suffix _
